import Mathlib

/-!
Verification of the live-new-pairs notifier (`main.py`).

The program polls an exchange for the set of actively trading symbols,
diffs it against a persisted baseline (`known_pairs.json`), notifies a
Telegram chat about each new symbol, and persists the enlarged baseline.

This file gives a shallow embedding of the program's pure core:
JSON values, the baseline file, `load_known_pairs` / `save_known_pairs`,
`get_all_pairs`, the body of one poll cycle of `monitor_new_pairs`,
the `status` command, and the startup path of `main`.
-/

/-- JSON values as produced by Python's `json.loads`. Object entries keep
their textual order; duplicate keys are resolved by `lookupLast` (Python
keeps the last occurrence). Numeric literals are modelled as integers;
no behaviour relevant here depends on non-integer numerics. -/
inductive Json where
  | null : Json
  | bool (b : Bool) : Json
  | num (n : Int) : Json
  | str (s : String) : Json
  | arr (xs : List Json) : Json
  | obj (kvs : List (String × Json)) : Json

/-- The Python values a `set` built from a JSON document can contain:
lists and dicts are unhashable, so only these shapes can be elements. -/
inductive PyHashable where
  | null : PyHashable
  | bool (b : Bool) : PyHashable
  | num (n : Int) : PyHashable
  | str (s : String) : PyHashable
deriving DecidableEq, Repr

/-- Python `dict` built by `json.loads` keeps the last occurrence of a
duplicated key, so lookup returns the last binding. -/
def lookupLast (kvs : List (String × Json)) (k : String) : Option Json :=
  match kvs with
  | [] => none
  | (k1, v) :: rest =>
    match lookupLast rest k with
    | some w => some w
    | none => if k1 = k then some v else none

/-- A JSON value as a `set` element: `none` for unhashable shapes
(lists, dicts), whose insertion raises `TypeError`. -/
def toHashable : Json → Option PyHashable
  | .null => some .null
  | .bool b => some (.bool b)
  | .num n => some (.num n)
  | .str s => some (.str s)
  | .arr _ => none
  | .obj _ => none

/-- The elements of a Python list as `set` elements, or `none` as soon
as one of them is unhashable. -/
def hashList : List Json → Option (List PyHashable)
  | [] => some []
  | x :: xs =>
    match toHashable x with
    | none => none
    | some h => (hashList xs).map (fun l => h :: l)

/-- Python `set(v)`: `none` models a `TypeError` (non-iterable argument
or unhashable element). Iterating a string yields its one-character
strings; iterating a dict yields its keys. -/
def pySetOf : Json → Option (Finset PyHashable)
  | .arr xs => (hashList xs).map List.toFinset
  | .str s => some ((s.toList.map (fun c => PyHashable.str c.toString)).toFinset)
  | .obj kvs => some ((kvs.map (fun kv => PyHashable.str kv.1)).toFinset)
  | .null => none
  | .bool _ => none
  | .num _ => none

/-- The observable states of the baseline file `known_pairs.json`:
absent, unreadable (an `OSError` other than `FileNotFoundError`),
readable but not valid JSON, or valid JSON parsing to `j`. -/
inductive FileState where
  | missing : FileState
  | unreadable : FileState
  | malformed : FileState
  | json (j : Json) : FileState

/-- `load_known_pairs` (main.py lines 29-38): read and parse the file and
return `set(data.get("pairs", []))`; `FileNotFoundError` and every other
exception are caught and yield the empty set. A non-dict document makes
`data.get` raise `AttributeError` (caught); a non-iterable or unhashable
`pairs` value makes `set(...)` raise `TypeError` (caught). -/
def load_known_pairs : FileState → Finset PyHashable
  | .missing => ∅
  | .unreadable => ∅
  | .malformed => ∅
  | .json (.obj kvs) => (pySetOf ((lookupLast kvs "pairs").getD (Json.arr []))).getD ∅
  | .json (.null) => ∅
  | .json (.bool _) => ∅
  | .json (.num _) => ∅
  | .json (.str _) => ∅
  | .json (.arr _) => ∅

/-- Code-point lexicographic comparison of character lists, by structural
recursion (Python compares strings by code points). -/
def pyCharListLe : List Char → List Char → Bool
  | [], _ => true
  | _ :: _, [] => false
  | a :: as, b :: bs => if a = b then pyCharListLe as bs else decide (a < b)

/-- Python `a <= b` on strings: code-point lexicographic order. -/
def pyStrLe (a b : String) : Bool :=
  pyCharListLe a.data b.data

theorem pyCharListLe_iff (as bs : List Char) : pyCharListLe as bs = true ↔ as ≤ bs := by
  induction as generalizing bs with
  | nil => simp [pyCharListLe, List.nil_le]
  | cons a as ih =>
    cases bs with
    | nil =>
      simp only [pyCharListLe, Bool.false_eq_true, false_iff]
      intro h
      rcases lt_or_eq_of_le h with hlt | heq
      · cases hlt
      · cases heq
    | cons b bs =>
      by_cases hab : a = b
      · subst hab
        simp only [pyCharListLe, eq_self_iff_true, if_true]
        rw [ih bs]
        constructor
        · intro h
          exact List.cons_le_cons a h
        · intro h
          rcases lt_or_eq_of_le h with hlt | heq
          · cases hlt with
            | cons h1 => exact le_of_lt h1
            | rel h1 => exact absurd h1 (lt_irrefl a)
          · injection heq with h1 h2
            exact le_of_eq h2
      · simp only [pyCharListLe, if_neg hab, decide_eq_true_eq]
        constructor
        · intro h
          exact le_of_lt (List.Lex.rel h)
        · intro h
          rcases lt_or_eq_of_le h with hlt | heq
          · cases hlt with
            | cons h1 => exact absurd rfl hab
            | rel h1 => exact h1
          · injection heq with h1 h2
            exact absurd h1 hab

theorem pyStrLe_iff (a b : String) : pyStrLe a b = true ↔ a ≤ b := by
  rw [String.le_iff_toList_le]
  exact pyCharListLe_iff a.data b.data

/-- A kernel-computable decision procedure for `≤` on strings (the
library instance recurses over byte iterators and does not reduce). -/
def decStrLe (a b : String) : Decidable (a ≤ b) :=
  decidable_of_iff (pyStrLe a b = true) (pyStrLe_iff a b)

theorem insertionSort_perm_invariant (a b : List String) (h : List.Perm a b) :
    @List.insertionSort String (· ≤ ·) decStrLe a = @List.insertionSort String (· ≤ ·) decStrLe b := by
  letI : DecidableRel (α := String) (· ≤ ·) := decStrLe
  exact List.eq_of_perm_of_sorted
    (((List.perm_insertionSort (· ≤ ·) a).trans h).trans
      (List.perm_insertionSort (· ≤ ·) b).symm)
    (List.sorted_insertionSort (· ≤ ·) a)
    (List.sorted_insertionSort (· ≤ ·) b)

/-- Python `sorted` on a set of strings: the unique `≤`-sorted
enumeration, in code-point lexicographic order. Defined through
`List.insertionSort` on any enumeration of the underlying multiset;
sorting is invariant under permutation because a sorted list is
determined by its multiset of elements. -/
def sortedPairs (pairs : Finset String) : List String :=
  Quot.liftOn pairs.val (@List.insertionSort String (· ≤ ·) decStrLe)
    insertionSort_perm_invariant

/-- The JSON document `{"pairs": sorted(list(pairs))}` that
`save_known_pairs` (main.py lines 41-46) serialises. -/
def saveDoc (pairs : Finset String) : Json :=
  Json.obj [("pairs", Json.arr ((sortedPairs pairs).map Json.str))]

/-- The file state after a completed `save_known_pairs(pairs)`. -/
def save_known_pairs (pairs : Finset String) : FileState :=
  FileState.json (saveDoc pairs)

/-- The file states a concurrent or crash-interrupted reader can observe
while `save_known_pairs` runs: the old state, then — because
`open(KNOWN_PAIRS_FILE, "w")` truncates the file in place before
`json.dump` writes into it (no temporary file, no rename) — a truncated
or partially written content, which is not valid JSON (no strict prefix
of the serialised object document is a complete JSON document), and
finally the fully written document. -/
def saveObservableStates (old : FileState) (pairs : Finset String) : List FileState :=
  [old, FileState.malformed, save_known_pairs pairs]

/-- The outcome of the HTTP fetch in `get_all_pairs` (main.py lines
49-59): `failure` covers a network error, a non-2xx status raised by
`raise_for_status`, or a body that is not JSON — every exception is
caught and the function returns `[]`; `payload j` is a 2xx response
whose body parsed to `j`. -/
inductive FetchResult where
  | failure : FetchResult
  | payload (j : Json) : FetchResult

/-- Python `str.upper()`, character by character (the identifiers and
status strings involved are ASCII, where Python and `Char.toUpper`
agree). -/
def pyUpper (s : String) : String :=
  String.mk (s.data.map Char.toUpper)

/-- One descriptor `s` of the comprehension
`[s.get("symbol") for s in ... if s.get("status", "").upper() == "TRADING"]`:
`none` models an exception (a non-dict descriptor makes `.get` raise
`AttributeError`; a non-string status makes `.upper()` raise);
`some none` means the descriptor is filtered out; `some (some v)` means
it contributes `v` — `Json.null` when the `symbol` field is absent,
exactly as `s.get("symbol")` returns `None`. -/
def symbolOfDescriptor (s : Json) : Option (Option Json) :=
  match s with
  | .obj kvs =>
    match (lookupLast kvs "status").getD (Json.str "") with
    | .str st => if pyUpper st = "TRADING" then some (some ((lookupLast kvs "symbol").getD Json.null)) else some none
    | _ => none
  | _ => none

/-- Run the comprehension over the descriptor list; any exception
(`none`) aborts it, to be caught by the enclosing handler. -/
def collectSymbols : List Json → Option (List Json)
  | [] => some []
  | s :: rest =>
    match symbolOfDescriptor s with
    | none => none
    | some none => collectSymbols rest
    | some (some v) => (collectSymbols rest).map (fun l => v :: l)

/-- The comprehension's result on a parsed payload, or `none` when it
raises. `data.get("symbols", [])` on a non-dict raises `AttributeError`;
iterating a non-list `symbols` value either raises `TypeError`
(non-iterable) or yields non-dict items whose `.get` raises — except for
an empty string or empty dict, which iterate to nothing. -/
def activeSymbols (j : Json) : Option (List Json) :=
  match j with
  | .obj kvs =>
    match (lookupLast kvs "symbols").getD (Json.arr []) with
    | .arr items => collectSymbols items
    | .str s => if s = "" then some [] else none
    | .obj [] => some []
    | .obj (_ :: _) => none
    | _ => none
  | _ => none

/-- `get_all_pairs` (main.py lines 49-59): the list of `symbol` fields of
descriptors whose `status` upper-cases to `"TRADING"`; every exception is
caught and yields `[]`. Note the elements are arbitrary JSON values, not
necessarily strings. -/
def get_all_pairs : FetchResult → List Json
  | .failure => []
  | .payload j => (activeSymbols j).getD []

/-- Two-digit zero padding, as `strftime` renders each field. -/
def pad2 (n : Nat) : String :=
  if n < 10 then "0" ++ toString n else toString n

/-- Civil date (year, month, day) of a day count since 1970-01-01, for
the proleptic Gregorian calendar (the standard days-to-civil algorithm,
restricted to non-negative day counts). -/
def civilFromDays (z0 : Nat) : Nat × Nat × Nat :=
  let z := z0 + 719468
  let era := z / 146097
  let doe := z % 146097
  let yoe := (doe - doe / 1460 + doe / 36524 - doe / 146096) / 365
  let y := yoe + era * 400
  let doy := doe - (365 * yoe + yoe / 4 - yoe / 100)
  let mp := (5 * doy + 2) / 153
  let d := doy - (153 * mp + 2) / 5 + 1
  let m := if mp < 10 then mp + 3 else mp - 9
  (if m ≤ 2 then y + 1 else y, m, d)

/-- `time.strftime("%Y-%m-%d %H:%M:%S", time.gmtime(t))` for `t` seconds
since the epoch (main.py line 85). -/
def strftimeUTC (t : Nat) : String :=
  let c := civilFromDays (t / 86400)
  let rem := t % 86400
  toString c.1 ++ "-" ++ pad2 c.2.1 ++ "-" ++ pad2 c.2.2 ++ " " ++
    pad2 (rem / 3600) ++ ":" ++ pad2 (rem % 3600 / 60) ++ ":" ++ pad2 (rem % 60)

/-- The notification text of main.py line 87 for pair `p`, with `now`
already rendered: the new identifier, the fixed exchange label and the
timestamp string interpolated into the fixed template. -/
def messageText (p : String) (now : String) : String :=
  "🆕 Neues Pair entdeckt: <b>" ++ p ++ "</b>\nExchange: Binance\nZeit (UTC): " ++ now

/-- One attempted notification: the text passed to
`send_telegram_message`, the clock (milliseconds since the epoch) at the
moment the text was formatted, and whether delivery succeeded.
`send_telegram_message` (main.py lines 62-66) catches every exception, so
a failed delivery is invisible to the caller. -/
structure SentMessage where
  text : String
  formatTime : Nat
  delivered : Bool
deriving DecidableEq, Repr

/-- The outcome of one body of the `while` loop of `monitor_new_pairs`
(main.py lines 76-99): the notifications attempted in order, the
in-memory known set afterwards, and the baseline file written this
cycle, if any. -/
structure CycleResult where
  messages : List SentMessage
  known : Finset String
  saved : Option FileState

/-- The notification loop of main.py lines 86-90: one message per pair in
order, each followed by `await asyncio.sleep(0.5)`. `nowText` was
rendered once, before the loop; `t` is the clock in milliseconds when the
current message is formatted, and each iteration advances it by the send
duration `sendDur` plus the 500 ms sleep. `sendOk` tells whether this
pair's delivery succeeds; failures are swallowed inside
`send_telegram_message` and do not influence the loop. -/
def notifyLoop (nowText : String) (sendOk : String → Bool) (sendDur : Nat) :
    Nat → List String → List SentMessage
  | _, [] => []
  | t, p :: ps =>
    ⟨messageText p nowText, t, sendOk p⟩ :: notifyLoop nowText sendOk sendDur (t + sendDur + 500) ps

/-- One poll-cycle body of `monitor_new_pairs` (main.py lines 77-96),
in normal operation (every fetched symbol a string):
`all_pairs = set(get_all_pairs())`; an empty set skips the cycle;
`new_pairs = all_pairs - known`; if non-empty, `now` is rendered once at
clock `t` (milliseconds since the epoch), the pairs are notified in
`sorted` order, then `known.update(new_pairs)` and
`save_known_pairs(known)` run unconditionally of delivery outcomes. -/
def runCycle (known : Finset String) (fetched : List String) (t sendDur : Nat)
    (sendOk : String → Bool) : CycleResult :=
  let all_pairs := fetched.toFinset
  if all_pairs.card = 0 then ⟨[], known, none⟩
  else
    let new_pairs := all_pairs \ known
    if new_pairs.card = 0 then ⟨[], known, none⟩
    else
      let nowText := strftimeUTC (t / 1000)
      let msgs := notifyLoop nowText sendOk sendDur t (sortedPairs new_pairs)
      let known2 := known ∪ new_pairs
      ⟨msgs, known2, some (save_known_pairs known2)⟩

/-- The environment one cycle runs in: the fetched symbol list, the clock
in milliseconds when its diff completes, the per-message send duration,
and which deliveries succeed. -/
structure CycleEnv where
  fetched : List String
  t : Nat
  sendDur : Nat
  sendOk : String → Bool

/-- The in-memory known set after a sequence of poll cycles. -/
def runCycles (known : Finset String) : List CycleEnv → Finset String
  | [] => known
  | e :: rest => runCycles (runCycle known e.fetched e.t e.sendDur e.sendOk).known rest

/-- `TELEGRAM_BOT_TOKEN = os.getenv(...) or "DEIN_TELEGRAM_BOT_TOKEN_HIER"`
(main.py line 20): Python `or` replaces both an unset variable (`None`)
and an empty string (falsy) by the hard-coded placeholder. -/
def TELEGRAM_BOT_TOKEN (env : Option String) : String :=
  match env with
  | none => "DEIN_TELEGRAM_BOT_TOKEN_HIER"
  | some s => if s = "" then "DEIN_TELEGRAM_BOT_TOKEN_HIER" else s

/-- `TELEGRAM_CHAT_ID = os.getenv(...) or "DEINE_CHAT_ID_HIER"`
(main.py line 21). -/
def TELEGRAM_CHAT_ID (env : Option String) : String :=
  match env with
  | none => "DEINE_CHAT_ID_HIER"
  | some s => if s = "" then "DEINE_CHAT_ID_HIER" else s

/-- `POLL_INTERVAL = 60` (main.py line 22), in seconds. -/
def POLL_INTERVAL : Nat := 60

/-- What `main` (main.py lines 116-126) does at startup: build the
application with the resolved credentials and start the monitoring task.
The source has no validation branch — `create_task(monitor_new_pairs(app))`
runs unconditionally and no diagnostic path exists — so `monitorStarted`
is constitutively `true`. -/
structure AppRun where
  token : String
  chatId : String
  monitorStarted : Bool
deriving DecidableEq, Repr

/-- The startup path of `main` as a function of the two credential
environment variables (named `mainStartup` because a bare `main` must be
an entry point in Lean). -/
def mainStartup (botTokenEnv chatIdEnv : Option String) : AppRun :=
  ⟨TELEGRAM_BOT_TOKEN botTokenEnv, TELEGRAM_CHAT_ID chatIdEnv, true⟩

/-- The process state visible to the command handlers: the baseline file
on disk and the Detection Engine's in-memory known set (the local
variable `known` of `monitor_new_pairs`). -/
structure ProcessState where
  file : FileState
  knownInMemory : Finset String

/-- `status_command` (main.py lines 109-111): it calls
`load_known_pairs()` afresh against the file and reports that count with
the polling interval; it has no access to the monitor's local `known`. -/
def status_command (st : ProcessState) : Nat × Nat :=
  ((load_known_pairs st.file).card, POLL_INTERVAL)

/-! ### Supporting lemmas -/

theorem sortedPairs_coe (S : Finset String) : (sortedPairs S : Multiset String) = S.val := by
  letI : DecidableRel (α := String) (· ≤ ·) := decStrLe
  rcases S with ⟨val, nd⟩
  induction val using Quotient.inductionOn with
  | h l => exact Quot.sound (List.perm_insertionSort _ l)

theorem mem_sortedPairs (S : Finset String) (p : String) :
    p ∈ sortedPairs S ↔ p ∈ S := by
  rw [← Multiset.mem_coe, sortedPairs_coe]
  rfl

theorem toFinset_sortedPairs (S : Finset String) : (sortedPairs S).toFinset = S := by
  ext p
  rw [List.mem_toFinset, mem_sortedPairs]

theorem hashList_map_str (l : List String) :
    hashList (l.map Json.str) = some (l.map PyHashable.str) := by
  induction l with
  | nil => rfl
  | cons x xs ih => simp [hashList, toHashable, ih]

theorem toFinset_map_str (l : List String) :
    (l.map PyHashable.str).toFinset = l.toFinset.image PyHashable.str := by
  ext h
  simp [List.mem_toFinset, Finset.mem_image]

theorem load_save (S : Finset String) :
    load_known_pairs (save_known_pairs S) = S.image PyHashable.str := by
  show (pySetOf ((lookupLast [("pairs", Json.arr ((sortedPairs S).map Json.str))] "pairs").getD
    (Json.arr []))).getD ∅ = S.image PyHashable.str
  simp only [lookupLast, eq_self_iff_true, if_true, Option.getD_some, pySetOf,
    hashList_map_str, Option.map_some, Option.map_some']
  rw [toFinset_map_str, toFinset_sortedPairs]

theorem notifyLoop_map_text (nowText : String) (sendOk : String → Bool) (sendDur t : Nat)
    (l : List String) :
    (notifyLoop nowText sendOk sendDur t l).map SentMessage.text =
      l.map (fun p => messageText p nowText) := by
  induction l generalizing t with
  | nil => rfl
  | cons p ps ih => simp [notifyLoop, ih]

theorem mem_notifyLoop (nowText : String) (sendOk : String → Bool) (sendDur t : Nat)
    (l : List String) (m : SentMessage) (h : m ∈ notifyLoop nowText sendOk sendDur t l) :
    ∃ p ∈ l, m.text = messageText p nowText := by
  induction l generalizing t with
  | nil => cases h
  | cons p ps ih =>
    simp only [notifyLoop, List.mem_cons] at h
    rcases h with h | h
    · exact ⟨p, List.mem_cons_self p ps, by rw [h]⟩
    · obtain ⟨q, hq, hm⟩ := ih _ h
      exact ⟨q, List.mem_cons_of_mem p hq, hm⟩

theorem runCycle_known_eq (k : Finset String) (f : List String) (t d : Nat)
    (s : String → Bool) :
    (runCycle k f t d s).known = k ∪ (f.toFinset \ k) := by
  by_cases h1 : f.toFinset.card = 0
  · have he : f.toFinset = ∅ := Finset.card_eq_zero.mp h1
    simp [runCycle, h1, he]
  · by_cases h2 : (f.toFinset \ k).card = 0
    · have he : f.toFinset \ k = ∅ := Finset.card_eq_zero.mp h2
      simp [runCycle, h1, h2, he]
    · simp [runCycle, h1, h2]

theorem runCycle_messages_eq (k : Finset String) (f : List String) (t d : Nat)
    (s : String → Bool) :
    (runCycle k f t d s).messages =
      if (f.toFinset \ k).card = 0 then []
      else notifyLoop (strftimeUTC (t / 1000)) s d t (sortedPairs (f.toFinset \ k)) := by
  by_cases h1 : f.toFinset.card = 0
  · have he : f.toFinset = ∅ := Finset.card_eq_zero.mp h1
    simp [runCycle, h1, he]
  · by_cases h2 : (f.toFinset \ k).card = 0
    · simp [runCycle, h1, h2]
    · simp [runCycle, h1, h2]

theorem runCycle_saved_eq (k : Finset String) (f : List String) (t d : Nat)
    (s : String → Bool) :
    (runCycle k f t d s).saved =
      if (f.toFinset \ k).card = 0 then none
      else some (save_known_pairs (k ∪ (f.toFinset \ k))) := by
  by_cases h1 : f.toFinset.card = 0
  · have he : f.toFinset = ∅ := Finset.card_eq_zero.mp h1
    simp [runCycle, h1, he]
  · by_cases h2 : (f.toFinset \ k).card = 0
    · simp [runCycle, h1, h2]
    · simp [runCycle, h1, h2]

theorem runCycle_known_subset (k : Finset String) (f : List String) (t d : Nat)
    (s : String → Bool) : k ⊆ (runCycle k f t d s).known := by
  rw [runCycle_known_eq]
  exact Finset.subset_union_left

theorem runCycles_known_subset (k : Finset String) (envs : List CycleEnv) :
    k ⊆ runCycles k envs := by
  induction envs generalizing k with
  | nil => exact Finset.Subset.refl k
  | cons e rest ih =>
    exact (runCycle_known_subset k e.fetched e.t e.sendDur e.sendOk).trans
      (ih (runCycle k e.fetched e.t e.sendDur e.sendOk).known)

/-! ### Claims -/

/-- C1, counterexample: the claim "a concurrent or crash-interrupted read
never observes a partially-written baseline file" is false for this
`save_known_pairs`: while saving `{"BTCUSDT","ETHUSDT"}` over a baseline
holding `{"BTCUSDT"}`, the truncated in-place file (`malformed`) is
observable; it is neither the old nor the new document, and what a
concurrent `load_known_pairs` returns on it matches no prior successful
save of the scenario. -/
theorem C1_counterexample :
    FileState.malformed ∈
      saveObservableStates (save_known_pairs {"BTCUSDT"}) {"BTCUSDT", "ETHUSDT"} ∧
    FileState.malformed ≠ save_known_pairs {"BTCUSDT"} ∧
    FileState.malformed ≠ save_known_pairs {"BTCUSDT", "ETHUSDT"} ∧
    load_known_pairs FileState.malformed ≠
      load_known_pairs (save_known_pairs {"BTCUSDT"}) ∧
    load_known_pairs FileState.malformed ≠
      load_known_pairs (save_known_pairs {"BTCUSDT", "ETHUSDT"}) := by
  refine ⟨by simp [saveObservableStates], ?_, ?_, fun h => ?_, fun h => ?_⟩
  · intro h
    simp [save_known_pairs, saveDoc] at h
  · intro h
    simp [save_known_pairs, saveDoc] at h
  · have hm : PyHashable.str "BTCUSDT" ∈ load_known_pairs (save_known_pairs {"BTCUSDT"}) := by
      decide
    rw [← h] at hm
    exact absurd hm (by decide)
  · have hm : PyHashable.str "BTCUSDT" ∈
      load_known_pairs (save_known_pairs {"BTCUSDT", "ETHUSDT"}) := by decide
    rw [← h] at hm
    exact absurd hm (by decide)

/-- C1, amended: `save_known_pairs` truncates the baseline file in place
and rewrites it (no write-to-temp-then-rename), so an interrupted read
can observe a partially written, malformed file; because
`load_known_pairs` fails closed, every state observable during a save
loads to the old baseline, the new baseline, or the empty set. -/
theorem C1_save_in_place_loads_old_new_or_empty (old : FileState) (S : Finset String)
    (fs : FileState) (h : fs ∈ saveObservableStates old S) :
    load_known_pairs fs = load_known_pairs old ∨
    load_known_pairs fs = S.image PyHashable.str ∨
    load_known_pairs fs = ∅ := by
  simp only [saveObservableStates, List.mem_cons, List.not_mem_nil, or_false] at h
  rcases h with h | h | h
  · left; rw [h]
  · right; right; rw [h]; rfl
  · right; left; rw [h]; exact load_save S

/-- C1, witness for the amended theorem at a concrete observable state. -/
theorem C1_witness :
    load_known_pairs FileState.malformed = load_known_pairs FileState.missing ∨
    load_known_pairs FileState.malformed = Finset.image PyHashable.str ∅ ∨
    load_known_pairs FileState.malformed = ∅ :=
  C1_save_in_place_loads_old_new_or_empty FileState.missing ∅ FileState.malformed
    (by simp [saveObservableStates])

/-- C2: `load_known_pairs` fails closed — a missing, unreadable or
malformed baseline file yields the empty Known-Set and no error (the
function is total) — and a first cycle run with the empty Known-Set
notifies exactly the currently active symbols, in sorted order. -/
theorem C2_load_fails_closed_first_cycle_reports_all :
    load_known_pairs FileState.missing = ∅ ∧
    load_known_pairs FileState.unreadable = ∅ ∧
    load_known_pairs FileState.malformed = ∅ ∧
    ∀ (fetched : List String) (t sendDur : Nat) (sendOk : String → Bool),
      (runCycle ∅ fetched t sendDur sendOk).messages.map SentMessage.text =
        (sortedPairs fetched.toFinset).map
          (fun p => messageText p (strftimeUTC (t / 1000))) := by
  refine ⟨rfl, rfl, rfl, fun fetched t d s => ?_⟩
  rw [runCycle_messages_eq, Finset.sdiff_empty]
  by_cases h : fetched.toFinset.card = 0
  · have he : fetched.toFinset = ∅ := Finset.card_eq_zero.mp h
    rw [if_pos h, he]
    rfl
  · rw [if_neg h, notifyLoop_map_text]

/-- C3: with known = {"BTCUSDT","ETHUSDT"} and a fetch returning
{"BTCUSDT","ETHUSDT","SOLUSDT"}, exactly one notification is generated,
for "SOLUSDT"; the in-memory Known-Set and the persisted snapshot
afterwards hold exactly the three pairs (the snapshot loads back to
exactly them); and in general the cycle's additions are the pure set
difference fetched − known. -/
theorem C3_diff_correctness :
    (runCycle {"BTCUSDT", "ETHUSDT"} ["BTCUSDT", "ETHUSDT", "SOLUSDT"] 0 0
        (fun _ => true)).messages.map SentMessage.text =
      [messageText "SOLUSDT" (strftimeUTC 0)] ∧
    (runCycle {"BTCUSDT", "ETHUSDT"} ["BTCUSDT", "ETHUSDT", "SOLUSDT"] 0 0
        (fun _ => true)).known = {"BTCUSDT", "ETHUSDT", "SOLUSDT"} ∧
    (runCycle {"BTCUSDT", "ETHUSDT"} ["BTCUSDT", "ETHUSDT", "SOLUSDT"] 0 0
        (fun _ => true)).saved =
      some (save_known_pairs {"BTCUSDT", "ETHUSDT", "SOLUSDT"}) ∧
    load_known_pairs (save_known_pairs {"BTCUSDT", "ETHUSDT", "SOLUSDT"}) =
      Finset.image PyHashable.str {"BTCUSDT", "ETHUSDT", "SOLUSDT"} ∧
    ∀ (known : Finset String) (fetched : List String) (t d : Nat) (s : String → Bool),
      (runCycle known fetched t d s).known = known ∪ (fetched.toFinset \ known) := by
  have hk : (runCycle {"BTCUSDT", "ETHUSDT"} ["BTCUSDT", "ETHUSDT", "SOLUSDT"] 0 0
      (fun _ => true)).known = {"BTCUSDT", "ETHUSDT", "SOLUSDT"} :=
    Finset.Subset.antisymm (by decide) (by decide)
  have hs : (runCycle {"BTCUSDT", "ETHUSDT"} ["BTCUSDT", "ETHUSDT", "SOLUSDT"] 0 0
      (fun _ => true)).saved =
    some (save_known_pairs ((runCycle {"BTCUSDT", "ETHUSDT"} ["BTCUSDT", "ETHUSDT", "SOLUSDT"]
      0 0 (fun _ => true)).known)) := rfl
  refine ⟨by decide, hk, ?_, load_save _, runCycle_known_eq⟩
  rw [hs, hk]

/-- C4, counterexample: with both credential variables unset, the
process does not fail fast — `mainStartup` still reports the monitoring
loop as started and silently substitutes the hard-coded placeholder
credentials. -/
theorem C4_counterexample :
    (mainStartup none none).monitorStarted = true ∧
    (mainStartup none none).token = "DEIN_TELEGRAM_BOT_TOKEN_HIER" ∧
    (mainStartup none none).chatId = "DEINE_CHAT_ID_HIER" :=
  ⟨rfl, rfl, rfl⟩

/-- C4, amended: there is no startup validation — for every environment
the monitoring loop is started, and a missing or empty credential is
silently replaced by its hard-coded placeholder rather than producing a
diagnostic. -/
theorem C4_no_fail_fast (botTokenEnv chatIdEnv : Option String) :
    (mainStartup botTokenEnv chatIdEnv).monitorStarted = true ∧
    ((botTokenEnv = none ∨ botTokenEnv = some "") →
      (mainStartup botTokenEnv chatIdEnv).token = "DEIN_TELEGRAM_BOT_TOKEN_HIER") ∧
    ((chatIdEnv = none ∨ chatIdEnv = some "") →
      (mainStartup botTokenEnv chatIdEnv).chatId = "DEINE_CHAT_ID_HIER") := by
  refine ⟨rfl, ?_, ?_⟩
  · rintro (rfl | rfl) <;> rfl
  · rintro (rfl | rfl) <;> rfl

/-- C4, witness for the amended theorem with both credentials unset. -/
theorem C4_witness :
    (mainStartup none none).monitorStarted = true ∧
    (mainStartup none none).token = "DEIN_TELEGRAM_BOT_TOKEN_HIER" :=
  ⟨(C4_no_fail_fast none none).1, (C4_no_fail_fast none none).2.1 (Or.inl rfl)⟩

/-- C5, counterexample: `now` is rendered once per cycle (main.py line
85), before the message loop, so a later message does not carry the
timestamp of its own formatting time: in a cycle whose diff completes at
clock 0 ms with send duration 600 ms, the second message is formatted at
clock 1100 ms but its text carries the rendering of second 0, which
differs from the rendering of second 1 = 1100 ms / 1000. -/
theorem C5_counterexample :
    (runCycle ∅ ["A", "B"] 0 600 (fun _ => true)).messages.get? 1 =
      some ⟨messageText "B" (strftimeUTC 0), 1100, true⟩ ∧
    messageText "B" (strftimeUTC 0) ≠ messageText "B" (strftimeUTC (1100 / 1000)) :=
  ⟨by decide, by decide⟩

/-- C5, amended: every message of a cycle is built from one new
identifier, the fixed exchange label and the `YYYY-MM-DD HH:MM:SS`
rendering of one single UTC instant — the clock `t` at which the cycle's
diff completed — shared by all messages of the cycle rather than taken
at each message's own formatting time. -/
theorem C5_timestamp_once_per_cycle (known : Finset String) (fetched : List String)
    (t d : Nat) (s : String → Bool) (m : SentMessage)
    (h : m ∈ (runCycle known fetched t d s).messages) :
    ∃ p ∈ fetched.toFinset \ known, m.text = messageText p (strftimeUTC (t / 1000)) := by
  rw [runCycle_messages_eq] at h
  by_cases hc : (fetched.toFinset \ known).card = 0
  · rw [if_pos hc] at h
    cases h
  · rw [if_neg hc] at h
    obtain ⟨p, hp, hm⟩ := mem_notifyLoop _ _ _ _ _ _ h
    exact ⟨p, (mem_sortedPairs _ _).mp hp, hm⟩

/-- C5, witness for the amended theorem at a concrete cycle. -/
theorem C5_witness :
    ∃ p ∈ (["A"] : List String).toFinset \ (∅ : Finset String),
      (SentMessage.mk (messageText "A" (strftimeUTC 0)) 0 true).text =
        messageText p (strftimeUTC (0 / 1000)) :=
  C5_timestamp_once_per_cycle ∅ ["A"] 0 0 (fun _ => true)
    ⟨messageText "A" (strftimeUTC 0), 0, true⟩ (by decide)

/-- C6: delivery failure is isolated — concretely, when the sink fails
exactly for "B" among the three new pairs A, B, C, all three sends are
still attempted in order (with only B undelivered) and all three pairs
are persisted; and in general the attempted message texts, the resulting
Known-Set and the saved snapshot are identical to those of a cycle in
which every delivery succeeds. -/
theorem C6_partial_failure_isolation :
    ((runCycle ∅ ["A", "B", "C"] 0 0 (fun p => !(p == "B"))).messages.map SentMessage.text =
      [messageText "A" (strftimeUTC 0), messageText "B" (strftimeUTC 0),
        messageText "C" (strftimeUTC 0)] ∧
     (runCycle ∅ ["A", "B", "C"] 0 0 (fun p => !(p == "B"))).messages.map SentMessage.delivered =
      [true, false, true] ∧
     (runCycle ∅ ["A", "B", "C"] 0 0 (fun p => !(p == "B"))).known = {"A", "B", "C"} ∧
     (runCycle ∅ ["A", "B", "C"] 0 0 (fun p => !(p == "B"))).saved =
      some (save_known_pairs {"A", "B", "C"})) ∧
    ∀ (known : Finset String) (fetched : List String) (t d : Nat) (s : String → Bool),
      (runCycle known fetched t d s).messages.map SentMessage.text =
        (runCycle known fetched t d (fun _ => true)).messages.map SentMessage.text ∧
      (runCycle known fetched t d s).known = (runCycle known fetched t d (fun _ => true)).known ∧
      (runCycle known fetched t d s).saved = (runCycle known fetched t d (fun _ => true)).saved := by
  constructor
  · have hk : (runCycle ∅ ["A", "B", "C"] 0 0 (fun p => !(p == "B"))).known = {"A", "B", "C"} :=
      Finset.Subset.antisymm (by decide) (by decide)
    have hs : (runCycle ∅ ["A", "B", "C"] 0 0 (fun p => !(p == "B"))).saved =
        some (save_known_pairs ((runCycle ∅ ["A", "B", "C"] 0 0
          (fun p => !(p == "B"))).known)) := rfl
    refine ⟨by decide, by decide, hk, ?_⟩
    rw [hs, hk]
  · intro known fetched t d s
    refine ⟨?_, ?_, ?_⟩
    · rw [runCycle_messages_eq, runCycle_messages_eq]
      by_cases hc : (fetched.toFinset \ known).card = 0
      · rw [if_pos hc, if_pos hc]
      · rw [if_neg hc, if_neg hc, notifyLoop_map_text, notifyLoop_map_text]
    · rw [runCycle_known_eq, runCycle_known_eq]
    · rw [runCycle_saved_eq, runCycle_saved_eq]

/-- C7: round-trip — for every set S of symbol identifier strings, the
empty set included, saving S and loading the result yields exactly S
(as `set` elements, i.e. under the injective embedding
`PyHashable.str`). -/
theorem C7_round_trip (S : Finset String) :
    load_known_pairs (save_known_pairs S) = S.image PyHashable.str :=
  load_save S

/-- C8: monotonicity — across any sequence of poll cycles the Known-Set
only grows: the starting set is contained in the result (so its size is
non-decreasing), and no single cycle removes an identifier. -/
theorem C8_monotonicity (known : Finset String) (envs : List CycleEnv) :
    known ⊆ runCycles known envs ∧
    known.card ≤ (runCycles known envs).card ∧
    ∀ (fetched : List String) (t d : Nat) (s : String → Bool),
      known ⊆ (runCycle known fetched t d s).known :=
  ⟨runCycles_known_subset known envs,
   Finset.card_le_card (runCycles_known_subset known envs),
   fun f t d s => runCycle_known_subset known f t d s⟩

/-- C9: a payload whose symbols array contains a descriptor with status
"trading" (matching "TRADING" case-insensitively) but no symbol field
makes `get_all_pairs` return a list containing `None` (`Json.null`), so
the resulting active set is not a set of symbol identifier strings. -/
theorem C9_missing_symbol_field_yields_none :
    get_all_pairs (FetchResult.payload (Json.obj [("symbols",
      Json.arr [Json.obj [("status", Json.str "trading")]])])) = [Json.null] ∧
    Json.null ∈ get_all_pairs (FetchResult.payload (Json.obj [("symbols",
      Json.arr [Json.obj [("status", Json.str "trading")]])])) ∧
    ∀ s : String, Json.null ≠ Json.str s := by
  refine ⟨rfl, ?_, fun s h => nomatch h⟩
  show Json.null ∈ [Json.null]
  exact List.mem_singleton_self Json.null

/-- C10: the status command recomputes its known-count by re-running
`load_known_pairs` against the baseline file at query time: its result
is a pure function of the file alone, so identifiers already added to
the Detection Engine's in-memory set but not yet persisted (here:
"BTCUSDT" in memory over a missing file) are not reflected, and no
state is mutated (the command is a pure read). -/
theorem C10_status_reloads_file :
    (∀ (f : FileState) (m1 m2 : Finset String),
      status_command ⟨f, m1⟩ = status_command ⟨f, m2⟩) ∧
    (∀ st : ProcessState,
      status_command st = ((load_known_pairs st.file).card, POLL_INTERVAL)) ∧
    status_command ⟨FileState.missing, {"BTCUSDT"}⟩ = (0, 60) ∧
    ({"BTCUSDT"} : Finset String).card = 1 :=
  ⟨fun _ _ _ => rfl, fun _ => rfl, rfl, rfl⟩
